import Mathlib

/-!
Shallow embedding of the yaa-translate service (`src/app.py`): a Flask
gateway that maps human-readable language names to Google Translate
language codes, delegates translation to an external provider, and shapes
success and error payloads.  JSON values are modelled by an inductive
`Json` type; Python-level operations used by the handler (`in` on a parsed
JSON body, subscripting, `str.lower`) are modelled with explicit
`Except`-valued functions so that unhandled Python exceptions are visible
as `.error` results.  The external provider is a parameter
(`ProviderRequest → Except String (List String)`): `.error msg` models the
provider raising an exception whose `str` is `msg`, `.ok ts` models a
response whose `translations` list carries translated texts `ts`.  Each
handler run also returns the list of provider requests issued, so that
call-count properties can be stated.
-/

/-- JSON values, as parsed by `request.json` into Python objects. -/
inductive Json where
  | null : Json
  | bool (b : Bool) : Json
  | num (n : Int) : Json
  | str (s : String) : Json
  | arr (items : List Json) : Json
  | obj (fields : List (String × Json)) : Json
deriving Repr, BEq

/-- Unhandled Python exceptions that can escape the `translate` handler. -/
inductive PyError where
  | typeError (msg : String) : PyError
  | attributeError (msg : String) : PyError
  | keyError (key : String) : PyError
deriving Repr, BEq

/-- Exceptions raised by `TranslationService.translate_text` and caught by
the `translate` handler: Python `ValueError` and `RuntimeError`. -/
inductive ServiceError where
  | valueError (msg : String) : ServiceError
  | runtimeError (msg : String) : ServiceError
deriving Repr, BEq

/-- One entry of `TranslationService.language_map`: provider `code` and
human-readable `full_name`. -/
structure LangEntry where
  code : String
  full_name : String
deriving Repr, BEq, DecidableEq

/-- The static `language_map` built in `TranslationService.__init__`
(src/app.py lines 13-30). -/
def language_map : List (String × LangEntry) :=
  [("english", ⟨"en-GB", "English"⟩),
   ("twi", ⟨"ak", "Twi (Akan)"⟩),
   ("ga", ⟨"gaa", "Ga"⟩),
   ("ewe", ⟨"ee", "Ewe"⟩)]

/-- Dictionary lookup `self.language_map[lang]`, `none` modelling a
`KeyError`. -/
def langResolve (k : String) : Option LangEntry :=
  language_map.lookup k

/-- Python `str.lower` restricted to basic latin letters, applied
characterwise (the only strings the spec exercises are ASCII). -/
def pyStrLower (s : String) : String :=
  ⟨s.data.map Char.toLower⟩

/-- Python `str.upper` restricted to basic latin letters, applied
characterwise (used only by the uppercasing stub provider of §8). -/
def pyStrUpper (s : String) : String :=
  ⟨s.data.map Char.toUpper⟩

/-- Python `k in d` for a string needle `k` and a parsed-JSON container
`d`: key membership for dicts, element membership for lists, substring
containment for strings, and a `TypeError` for non-container values
(in particular for `None`, the parse of JSON `null`). -/
def pyContains (d : Json) (k : String) : Except PyError Bool :=
  match d with
  | .obj fields => .ok (fields.any (fun f => f.1 == k))
  | .arr items => .ok (items.any (fun it => it == .str k))
  | .str s => .ok (decide (k.data <:+: s.data))
  | .null => .error (.typeError "argument of type 'NoneType' is not iterable")
  | .bool _ => .error (.typeError "argument of type 'bool' is not iterable")
  | .num _ => .error (.typeError "argument of type 'int' is not iterable")

/-- Python `all(key in data for key in ks)`: short-circuits on the first
`False`, propagates the first exception raised by a membership test. -/
def allKeysIn (d : Json) (ks : List String) : Except PyError Bool :=
  match ks with
  | [] => .ok true
  | k :: rest =>
    match pyContains d k with
    | .error e => .error e
    | .ok true => allKeysIn d rest
    | .ok false => .ok false

/-- Python `d[k]` for a string key: dict lookup for objects, a `TypeError`
for lists/strings/scalars (unhandled in the handler). -/
def pyGetItem (d : Json) (k : String) : Except PyError Json :=
  match d with
  | .obj fields =>
    match fields.lookup k with
    | some v => .ok v
    | none => .error (.keyError k)
  | .str _ => .error (.typeError "string indices must be integers")
  | .arr _ => .error (.typeError "list indices must be integers or slices, not str")
  | _ => .error (.typeError "object is not subscriptable")

/-- Python `v.lower()`: succeeds only on strings; any other value raises
`AttributeError` (unhandled in the handler). -/
def pyLower (v : Json) : Except PyError String :=
  match v with
  | .str s => .ok (pyStrLower s)
  | _ => .error (.attributeError "object has no attribute 'lower'")

/-- The argument record of one call to
`client.translate_text(contents=[text], target_language_code=...,
source_language_code=..., parent=..., mime_type="text/plain")`. -/
structure ProviderRequest where
  contents : List Json
  target_language_code : String
  source_language_code : String
  parent : String
  mime_type : String
deriving Repr, BEq

/-- The success dictionary built by `TranslationService.translate_text`
(src/app.py lines 66-71). -/
structure TranslationResult where
  original_text : Json
  translated_text : String
  source_language : String
  target_language : String
deriving Repr, BEq

/-- Serialization of a `TranslationResult` to the JSON object `jsonify`
produces, in dict insertion order. -/
def TranslationResult.toJson (r : TranslationResult) : Json :=
  .obj [("original_text", r.original_text),
        ("translated_text", .str r.translated_text),
        ("source_language", .str r.source_language),
        ("target_language", .str r.target_language)]

/-- The external provider: one network call
`client.translate_text(...)`.  `.error msg` models an exception with
message `msg`; `.ok ts` models `response.translations` mapped to the
translated texts. -/
def Provider : Type := ProviderRequest → Except String (List String)

/-- Embedding of `TranslationService.translate_text` (src/app.py lines
39-73).  Both registry lookups happen first; a `KeyError` on either becomes
`ValueError "Invalid language names"`.  The `try` block covers the provider
call and the construction of the result dict, so a provider exception -- or
an `IndexError` from `response.translations[0]` when the translations list
is empty -- is re-raised as
`RuntimeError ("Translation error: " ++ message)`.  The second component
lists the provider requests issued. -/
def translate_text (provider : Provider) (parent : String) (text : Json)
    (source_lang target_lang : String) :
    Except ServiceError TranslationResult × List ProviderRequest :=
  match langResolve source_lang, langResolve target_lang with
  | some se, some te =>
    let req : ProviderRequest :=
      { contents := [text],
        target_language_code := te.code,
        source_language_code := se.code,
        parent := parent,
        mime_type := "text/plain" }
    match provider req with
    | .error e => (.error (.runtimeError ("Translation error: " ++ e)), [req])
    | .ok [] =>
      (.error (.runtimeError "Translation error: list index out of range"), [req])
    | .ok (t :: _) =>
      (.ok { original_text := text,
             translated_text := t,
             source_language := se.full_name,
             target_language := te.full_name }, [req])
  | _, _ => (.error (.valueError "Invalid language names"), [])

/-- The 400 body for a missing required parameter. -/
def missingParamsBody : Json :=
  .obj [("error", .str "Missing required parameters: text, source_lang, target_lang")]

/-- Embedding of the `POST /translate` Flask handler (src/app.py lines
86-110).  Returns either an unhandled Python exception or an HTTP
`(status, body)` pair, together with the list of provider requests
issued. -/
def translateHandler (provider : Provider) (parent : String) (body : Json) :
    Except PyError (Nat × Json) × List ProviderRequest :=
  match allKeysIn body ["text", "source_lang", "target_lang"] with
  | .error e => (.error e, [])
  | .ok false => (.ok (400, missingParamsBody), [])
  | .ok true =>
    match pyGetItem body "text" with
    | .error e => (.error e, [])
    | .ok textVal =>
      match pyGetItem body "source_lang" with
      | .error e => (.error e, [])
      | .ok srcVal =>
        match pyLower srcVal with
        | .error e => (.error e, [])
        | .ok srcKey =>
          match pyGetItem body "target_lang" with
          | .error e => (.error e, [])
          | .ok tgtVal =>
            match pyLower tgtVal with
            | .error e => (.error e, [])
            | .ok tgtKey =>
              match translate_text provider parent textVal srcKey tgtKey with
              | (.ok result, calls) => (.ok (200, result.toJson), calls)
              | (.error (.valueError msg), calls) =>
                (.ok (400, .obj [("error", .str msg)]), calls)
              | (.error (.runtimeError msg), calls) =>
                (.ok (500, .obj [("error", .str msg)]), calls)

/-- Embedding of `TranslationService.get_supported_languages` (src/app.py
lines 75-82): the language map restricted to display names. -/
def get_supported_languages : List (String × String) :=
  language_map.map (fun p => (p.1, p.2.full_name))

/-- Embedding of the `GET /languages` Flask handler (src/app.py lines
112-117). -/
def supportedLanguagesHandler : Nat × Json :=
  (200, .obj (get_supported_languages.map (fun p => (p.1, .str p.2))))

/-- Stub provider that echoes each input text uppercased (test double of
§8 of the spec). -/
def upperStub : Provider := fun req =>
  .ok (req.contents.map (fun j => match j with | .str s => pyStrUpper s | _ => ""))

/-- Stub provider that always succeeds with a single fixed translation. -/
def okStub : Provider := fun _ => .ok ["x"]

/-- Stub provider that always raises, with message "boom". -/
def failStub : Provider := fun _ => .error "boom"

/-- Stub provider that returns an empty translations list, violating the
provider contract of at least one result. -/
def emptyStub : Provider := fun _ => .ok []

/-- C2: the registry has exactly four entries, each canonical key resolves
to exactly the code/display-name pair of the spec's table, every key is a
lowercase token, and every code and display name is non-empty. -/
theorem registry_exact :
    language_map.length = 4 ∧
    langResolve "english" = some ⟨"en-GB", "English"⟩ ∧
    langResolve "twi" = some ⟨"ak", "Twi (Akan)"⟩ ∧
    langResolve "ga" = some ⟨"gaa", "Ga"⟩ ∧
    langResolve "ewe" = some ⟨"ee", "Ewe"⟩ ∧
    (∀ p ∈ language_map,
      pyStrLower p.1 = p.1 ∧ p.2.code ≠ "" ∧ p.2.full_name ≠ "") := by
  refine ⟨rfl, rfl, rfl, rfl, rfl, ?_⟩
  intro p hp
  fin_cases hp <;> exact ⟨rfl, by decide, by decide⟩

/-- C7: `GET /languages` returns status 200 with exactly the four-entry
mapping from canonical key to display name; being a closed value of a pure
function it is identical on every call and leaves the registry untouched. -/
theorem languages_endpoint_exact :
    supportedLanguagesHandler =
      (200, .obj [("english", .str "English"), ("twi", .str "Twi (Akan)"),
                  ("ga", .str "Ga"), ("ewe", .str "Ewe")]) := by
  rfl

/-- Evaluation helper: on a three-field object body with string language
values, the handler reduces to the shaping of `translate_text`'s outcome
over the lower-cased keys. -/
theorem translateHandler_obj_eval (provider : Provider) (parent : String)
    (text : Json) (srcKey tgtKey : String) :
    translateHandler provider parent
        (.obj [("text", text), ("source_lang", .str srcKey),
               ("target_lang", .str tgtKey)]) =
      (match translate_text provider parent text (pyStrLower srcKey)
              (pyStrLower tgtKey) with
       | (.ok result, calls) => (.ok (200, result.toJson), calls)
       | (.error (.valueError msg), calls) =>
         (.ok (400, .obj [("error", .str msg)]), calls)
       | (.error (.runtimeError msg), calls) =>
         (.ok (500, .obj [("error", .str msg)]), calls)) := rfl

/-- C1: whenever both lower-cased language keys resolve and the provider
returns at least one translation, the handler answers 200 with the input
text verbatim, the provider's first translated text verbatim, and the
registry display names (not the provider codes) of both languages. -/
theorem translate_success_shape (provider : Provider)
    (parent text srcKey tgtKey : String) (se te : LangEntry)
    (t : String) (rest : List String)
    (hs : langResolve (pyStrLower srcKey) = some se)
    (ht : langResolve (pyStrLower tgtKey) = some te)
    (hp : provider ⟨[.str text], te.code, se.code, parent, "text/plain"⟩ =
            .ok (t :: rest)) :
    translateHandler provider parent
        (.obj [("text", .str text), ("source_lang", .str srcKey),
               ("target_lang", .str tgtKey)]) =
      (.ok (200, .obj [("original_text", .str text),
                       ("translated_text", .str t),
                       ("source_language", .str se.full_name),
                       ("target_language", .str te.full_name)]),
       [⟨[.str text], te.code, se.code, parent, "text/plain"⟩]) := by
  rw [translateHandler_obj_eval]
  simp [translate_text, hs, ht, hp, TranslationResult.toJson]

/-- C1 witness: with a stub provider that uppercases its input, the request
text "hello" from english to twi yields status 200, translated text
"HELLO", and display names "English" and "Twi (Akan)". -/
theorem translate_success_shape_witness :
    translateHandler upperStub "projects/p/locations/global"
        (.obj [("text", .str "hello"), ("source_lang", .str "english"),
               ("target_lang", .str "twi")]) =
      (.ok (200, .obj [("original_text", .str "hello"),
                       ("translated_text", .str "HELLO"),
                       ("source_language", .str "English"),
                       ("target_language", .str "Twi (Akan)")]),
       [⟨[.str "hello"], "ak", "en-GB", "projects/p/locations/global",
         "text/plain"⟩]) :=
  translate_success_shape upperStub
    "projects/p/locations/global" "hello" "english" "twi"
    ⟨"en-GB", "English"⟩ ⟨"ak", "Twi (Akan)"⟩ "HELLO" []
    (by decide) (by decide) (by rfl)

/-- C3: if either lower-cased language key is absent from the registry, the
handler answers 400 with the single combined body
`error = "Invalid language names"`, the same whichever side (or both)
failed, and no provider call is made. -/
theorem translate_invalid_language (provider : Provider)
    (parent : String) (text : Json) (srcKey tgtKey : String)
    (h : langResolve (pyStrLower srcKey) = none ∨
         langResolve (pyStrLower tgtKey) = none) :
    translateHandler provider parent
        (.obj [("text", text), ("source_lang", .str srcKey),
               ("target_lang", .str tgtKey)]) =
      (.ok (400, .obj [("error", .str "Invalid language names")]), []) := by
  rw [translateHandler_obj_eval]
  rcases h with h | h
  · simp [translate_text, h]
  · cases hs : langResolve (pyStrLower srcKey) <;> simp [translate_text, hs, h]

/-- C3 witness: source key "klingon" (with a valid target) gets the 400
invalid-language response. -/
theorem translate_invalid_language_witness :
    translateHandler okStub "projects/p/locations/global"
        (.obj [("text", .str "hi"), ("source_lang", .str "klingon"),
               ("target_lang", .str "twi")]) =
      (.ok (400, .obj [("error", .str "Invalid language names")]), []) :=
  translate_invalid_language okStub
    "projects/p/locations/global" (.str "hi") "klingon" "twi"
    (.inl (by decide))

/-- Evaluation helper: an object body missing one of the three required
keys short-circuits to the 400 missing-parameters response with no
provider call. -/
theorem translateHandler_missing_eval (provider : Provider) (parent : String)
    (fields : List (String × Json))
    (h : ¬ ((fields.any (fun f => f.1 == "text")) = true ∧
            (fields.any (fun f => f.1 == "source_lang")) = true ∧
            (fields.any (fun f => f.1 == "target_lang")) = true)) :
    translateHandler provider parent (.obj fields) =
      (.ok (400, missingParamsBody), []) := by
  unfold translateHandler
  rcases ht : fields.any (fun f => f.1 == "text") with _ | _
  · simp [allKeysIn, pyContains, ht]
  · rcases hs : fields.any (fun f => f.1 == "source_lang") with _ | _
    · simp [allKeysIn, pyContains, ht, hs]
    · rcases hg : fields.any (fun f => f.1 == "target_lang") with _ | _
      · simp [allKeysIn, pyContains, ht, hs, hg]
      · exact absurd ⟨ht, hs, hg⟩ h

/-- C4: a JSON-object body lacking at least one of the keys `text`,
`source_lang`, `target_lang` gets status 400 with the exact
missing-parameters body, with no registry resolution and no provider call
(the provider and the field values, valid or not, are irrelevant). -/
theorem translate_missing_params (provider : Provider) (parent : String)
    (fields : List (String × Json))
    (h : ¬ ((fields.any (fun f => f.1 == "text")) = true ∧
            (fields.any (fun f => f.1 == "source_lang")) = true ∧
            (fields.any (fun f => f.1 == "target_lang")) = true)) :
    translateHandler provider parent (.obj fields) =
      (.ok (400, missingParamsBody), []) :=
  translateHandler_missing_eval provider parent fields h

/-- C4 witness: a body missing `target_lang` while also carrying an
unknown language name gets the missing-parameters response, not the
invalid-language one. -/
theorem translate_missing_params_witness :
    translateHandler okStub "projects/p/locations/global"
        (.obj [("text", .str "hi"), ("source_lang", .str "klingon")]) =
      (.ok (400, missingParamsBody), []) :=
  translate_missing_params okStub "projects/p/locations/global"
    [("text", .str "hi"), ("source_lang", .str "klingon")]
    (by decide)

/-- C5: when both lower-cased language keys resolve and the provider call
fails with message `e`, the handler catches it and answers 500 (not 400)
with body `error = "Translation error: " ++ e`, after exactly the one
provider call. -/
theorem translate_provider_error (provider : Provider)
    (parent text srcKey tgtKey : String) (se te : LangEntry) (e : String)
    (hs : langResolve (pyStrLower srcKey) = some se)
    (ht : langResolve (pyStrLower tgtKey) = some te)
    (hp : provider ⟨[.str text], te.code, se.code, parent, "text/plain"⟩ =
            .error e) :
    translateHandler provider parent
        (.obj [("text", .str text), ("source_lang", .str srcKey),
               ("target_lang", .str tgtKey)]) =
      (.ok (500, .obj [("error", .str ("Translation error: " ++ e))]),
       [⟨[.str text], te.code, se.code, parent, "text/plain"⟩]) := by
  rw [translateHandler_obj_eval]
  simp [translate_text, hs, ht, hp]

/-- C5 witness: a provider raising with message "boom" yields status 500
and body `error = "Translation error: boom"`. -/
theorem translate_provider_error_witness :
    translateHandler failStub "projects/p/locations/global"
        (.obj [("text", .str "hi"), ("source_lang", .str "english"),
               ("target_lang", .str "ewe")]) =
      (.ok (500, .obj [("error", .str "Translation error: boom")]),
       [⟨[.str "hi"], "ee", "en-GB", "projects/p/locations/global",
         "text/plain"⟩]) :=
  translate_provider_error failStub "projects/p/locations/global"
    "hi" "english" "ewe" ⟨"en-GB", "English"⟩ ⟨"ee", "Ewe"⟩ "boom"
    (by decide) (by decide) rfl

/-- Helper: packing a `Nat` below the surrogate range into a `Char` and
unpacking it is the identity. -/
theorem toNat_ofNat_small {n : Nat} (h : n < 55296) : (Char.ofNat n).toNat = n := by
  have hv : n.isValidChar := Or.inl h
  simp [Char.ofNat, hv, Char.ofNatAux, Char.toNat, UInt32.toNat, BitVec.toNat_ofNatLt]

/-- Helper: `Char.toLower` fixes any character outside the basic latin
uppercase range. -/
theorem char_toLower_eq_self {c : Char} (h : ¬(65 ≤ c.toNat ∧ c.toNat ≤ 90)) :
    c.toLower = c := by
  unfold Char.toLower
  exact if_neg h

/-- Helper: the code point of a lower-cased character. -/
theorem char_toNat_toLower (c : Char) :
    c.toLower.toNat =
      if 65 ≤ c.toNat ∧ c.toNat ≤ 90 then c.toNat + 32 else c.toNat := by
  unfold Char.toLower
  by_cases h : 65 ≤ c.toNat ∧ c.toNat ≤ 90
  · rw [if_pos h, if_pos h, toNat_ofNat_small (by omega)]
  · rw [if_neg h, if_neg h]

/-- Helper: `Char.toLower` is idempotent. -/
theorem char_toLower_toLower (c : Char) : c.toLower.toLower = c.toLower := by
  apply char_toLower_eq_self
  rw [char_toNat_toLower]
  by_cases h : 65 ≤ c.toNat ∧ c.toNat ≤ 90
  · rw [if_pos h]; omega
  · rw [if_neg h]; exact h

/-- Helper: lower-casing is idempotent on strings. -/
theorem pyStrLower_pyStrLower (s : String) :
    pyStrLower (pyStrLower s) = pyStrLower s := by
  unfold pyStrLower
  have hcomp : Char.toLower ∘ Char.toLower = Char.toLower :=
    funext char_toLower_toLower
  simp [List.map_map, hcomp]

/-- C6: language keys are lower-cased before registry lookup, so any
request behaves exactly like the same request with already-lowercase
keys; in particular the mixed-case request "English" → "TWI" still
resolves and succeeds. -/
theorem translate_case_insensitive :
    (∀ (provider : Provider) (parent : String) (text : Json) (s g : String),
       translateHandler provider parent
           (.obj [("text", text), ("source_lang", .str s),
                  ("target_lang", .str g)]) =
         translateHandler provider parent
           (.obj [("text", text), ("source_lang", .str (pyStrLower s)),
                  ("target_lang", .str (pyStrLower g))])) ∧
    translateHandler upperStub "projects/p/locations/global"
        (.obj [("text", .str "hey"), ("source_lang", .str "English"),
               ("target_lang", .str "TWI")]) =
      (.ok (200, .obj [("original_text", .str "hey"),
                       ("translated_text", .str "HEY"),
                       ("source_language", .str "English"),
                       ("target_language", .str "Twi (Akan)")]),
       [⟨[.str "hey"], "ak", "en-GB", "projects/p/locations/global",
         "text/plain"⟩]) := by
  constructor
  · intro provider parent text s g
    rw [translateHandler_obj_eval, translateHandler_obj_eval,
        pyStrLower_pyStrLower, pyStrLower_pyStrLower]
  · rfl

/-- Helper: `translate_text` issues at most one provider request. -/
theorem translate_text_calls_le_one (provider : Provider) (parent : String)
    (text : Json) (s g : String) :
    (translate_text provider parent text s g).2.length ≤ 1 := by
  cases hs : langResolve s with
  | none => simp [translate_text, hs]
  | some se =>
    cases hg : langResolve g with
    | none => simp [translate_text, hs, hg]
    | some te =>
      simp only [translate_text, hs, hg]
      rcases hp : provider ⟨[text], te.code, se.code, parent, "text/plain"⟩ with e | ts
      · simp [hp]
      · rcases ts with _ | ⟨t, rest⟩ <;> simp [hp]

/-- Helper: the handler issues at most one provider request, whatever the
body. -/
theorem translateHandler_calls_le_one (provider : Provider) (parent : String)
    (body : Json) :
    (translateHandler provider parent body).2.length ≤ 1 := by
  unfold translateHandler
  split
  · simp
  · simp
  · split
    · simp
    · rename_i textVal htext
      split
      · simp
      · rename_i srcVal hsrc
        split
        · simp
        · rename_i srcKey hlow
          split
          · simp
          · rename_i tgtVal htgt
            split
            · simp
            · rename_i tgtKey hlow2
              have h := translate_text_calls_le_one provider parent textVal srcKey tgtKey
              split <;> (rename_i heq; rw [heq] at h; simpa using h)

/-- Helper: on a well-formed body the handler issues exactly one provider
request when both lower-cased keys resolve, and none otherwise. -/
theorem translateHandler_call_count_obj (provider : Provider) (parent : String)
    (text : Json) (s g : String) :
    (translateHandler provider parent
        (.obj [("text", text), ("source_lang", .str s),
               ("target_lang", .str g)])).2.length =
      (if (langResolve (pyStrLower s)).isSome ∧ (langResolve (pyStrLower g)).isSome
       then 1 else 0) := by
  rw [translateHandler_obj_eval]
  cases hs : langResolve (pyStrLower s) with
  | none => simp [translate_text, hs]
  | some se =>
    cases hg : langResolve (pyStrLower g) with
    | none => simp [translate_text, hs, hg]
    | some te =>
      simp only [translate_text, hs, hg, Option.isSome_some, and_self, if_true]
      rcases hp : provider ⟨[text], te.code, se.code, parent, "text/plain"⟩ with e | ts
      · simp [hp]
      · rcases ts with _ | ⟨t, rest⟩ <;> simp [hp]

/-- C8: every invocation makes at most one provider call; on a well-formed
body it makes exactly one when both language keys resolve (even when the
provider then fails: no retry) and zero when either lookup fails; a body
failing the missing-parameter check makes zero calls. -/
theorem translate_provider_call_count :
    (∀ (provider : Provider) (parent : String) (body : Json),
       (translateHandler provider parent body).2.length ≤ 1) ∧
    (∀ (provider : Provider) (parent : String) (text : Json) (s g : String),
       (translateHandler provider parent
           (.obj [("text", text), ("source_lang", .str s),
                  ("target_lang", .str g)])).2.length =
         (if (langResolve (pyStrLower s)).isSome ∧
             (langResolve (pyStrLower g)).isSome
          then 1 else 0)) ∧
    (∀ (provider : Provider) (parent : String)
       (fields : List (String × Json)),
       ¬ ((fields.any (fun f => f.1 == "text")) = true ∧
          (fields.any (fun f => f.1 == "source_lang")) = true ∧
          (fields.any (fun f => f.1 == "target_lang")) = true) →
       (translateHandler provider parent (.obj fields)).2.length = 0) :=
  ⟨translateHandler_calls_le_one, translateHandler_call_count_obj,
   fun provider parent fields h => by
     rw [translateHandler_missing_eval provider parent fields h]
     rfl⟩

/-- C8 witness: a failing provider is called exactly once (no retry), and
a body missing `source_lang` and `target_lang` triggers no call. -/
theorem translate_provider_call_count_witness :
    (translateHandler failStub "projects/p/locations/global"
        (.obj [("text", .str "hi"), ("source_lang", .str "english"),
               ("target_lang", .str "twi")])).2.length = 1 ∧
    (translateHandler okStub "projects/p/locations/global"
        (.obj [("text", .str "hi")])).2.length = 0 :=
  ⟨(translate_provider_call_count.2.1 failStub "projects/p/locations/global"
      (.str "hi") "english" "twi").trans (by decide),
   translate_provider_call_count.2.2 okStub "projects/p/locations/global"
     [("text", .str "hi")] (by decide)⟩

/-- C9: two request shapes escape the spec's three-error taxonomy: a JSON
`null` body makes the key-membership check raise an unhandled `TypeError`,
and a non-string `source_lang` (a JSON number) makes the lowercasing step
raise an unhandled `AttributeError`; neither produces the 400
missing-parameters, 400 invalid-language, or 500 translation-error
response. -/
theorem translate_unhandled_exceptions :
    (∀ (provider : Provider) (parent : String),
       translateHandler provider parent .null =
         (.error (.typeError "argument of type 'NoneType' is not iterable"),
          [])) ∧
    (∀ (provider : Provider) (parent : String),
       translateHandler provider parent
           (.obj [("text", .str "hi"), ("source_lang", .num 5),
                  ("target_lang", .str "twi")]) =
         (.error (.attributeError "object has no attribute 'lower'"), [])) :=
  ⟨fun _ _ => rfl, fun _ _ => rfl⟩

/-- Helper: the success branch of `translate_text` is reached only when
both keys resolve and the provider returned at least one translation,
the first of which is the result's translated text. -/
theorem translate_text_ok_inv (provider : Provider) (parent : String)
    (text : Json) (s g : String) (r : TranslationResult)
    (calls : List ProviderRequest)
    (h : translate_text provider parent text s g = (.ok r, calls)) :
    ∃ se te rest, langResolve s = some se ∧ langResolve g = some te ∧
      provider ⟨[text], te.code, se.code, parent, "text/plain"⟩ =
        .ok (r.translated_text :: rest) := by
  cases hs : langResolve s with
  | none => simp [translate_text, hs] at h
  | some se =>
    cases hg : langResolve g with
    | none => simp [translate_text, hs, hg] at h
    | some te =>
      simp only [translate_text, hs, hg] at h
      rcases hp : provider ⟨[text], te.code, se.code, parent, "text/plain"⟩ with e | ts
      · rw [hp] at h; simp at h
      · rw [hp] at h
        rcases ts with _ | ⟨t, rest⟩
        · simp at h
        · simp only [Prod.mk.injEq, Except.ok.injEq] at h
          refine ⟨se, te, rest, rfl, rfl, ?_⟩
          rw [hp, ← h.1]

/-- C10: the `try` wrapper also covers construction of the success dict,
so a provider that returns an empty translations list (violating its
contract) makes the out-of-range access surface as a 500
translation-error response instead of crashing the handler; and the
success branch is reached only when the provider returned at least one
translation. -/
theorem translate_empty_translations :
    (∀ (provider : Provider) (parent text srcKey tgtKey : String)
       (se te : LangEntry),
       langResolve (pyStrLower srcKey) = some se →
       langResolve (pyStrLower tgtKey) = some te →
       provider ⟨[.str text], te.code, se.code, parent, "text/plain"⟩ =
         .ok [] →
       translateHandler provider parent
           (.obj [("text", .str text), ("source_lang", .str srcKey),
                  ("target_lang", .str tgtKey)]) =
         (.ok (500,
               .obj [("error",
                      .str "Translation error: list index out of range")]),
          [⟨[.str text], te.code, se.code, parent, "text/plain"⟩])) ∧
    (∀ (provider : Provider) (parent : String) (text : Json) (s g : String)
       (r : TranslationResult) (calls : List ProviderRequest),
       translate_text provider parent text s g = (.ok r, calls) →
       ∃ se te rest, langResolve s = some se ∧ langResolve g = some te ∧
         provider ⟨[text], te.code, se.code, parent, "text/plain"⟩ =
           .ok (r.translated_text :: rest)) := by
  constructor
  · intro provider parent text srcKey tgtKey se te hs ht hp
    rw [translateHandler_obj_eval]
    simp [translate_text, hs, ht, hp]
  · exact translate_text_ok_inv

/-- C10 witness: a provider returning zero translations for an
english → ga request yields the 500 out-of-range message; a concrete
successful run of `translate_text` exhibits the provider's nonempty
translations list. -/
theorem translate_empty_translations_witness :
    translateHandler emptyStub "projects/p/locations/global"
        (.obj [("text", .str "hi"), ("source_lang", .str "english"),
               ("target_lang", .str "ga")]) =
      (.ok (500,
            .obj [("error",
                   .str "Translation error: list index out of range")]),
       [⟨[.str "hi"], "gaa", "en-GB", "projects/p/locations/global",
         "text/plain"⟩]) ∧
    (∃ se te rest, langResolve "english" = some se ∧
       langResolve "twi" = some te ∧
       okStub ⟨[.str "hi"], te.code, se.code, "projects/p/locations/global",
               "text/plain"⟩ =
         .ok ((⟨.str "hi", "x", "English", "Twi (Akan)"⟩ :
                TranslationResult).translated_text :: rest)) :=
  ⟨translate_empty_translations.1 emptyStub "projects/p/locations/global"
     "hi" "english" "ga" ⟨"en-GB", "English"⟩ ⟨"gaa", "Ga"⟩
     (by decide) (by decide) rfl,
   translate_empty_translations.2 okStub "projects/p/locations/global"
     (.str "hi") "english" "twi"
     ⟨.str "hi", "x", "English", "Twi (Akan)"⟩
     [⟨[.str "hi"], "ak", "en-GB", "projects/p/locations/global",
       "text/plain"⟩] rfl⟩

/-- C2 witness: the invariant instantiated at the "english" entry. -/
theorem registry_exact_witness :
    pyStrLower ("english", (⟨"en-GB", "English"⟩ : LangEntry)).1 =
        ("english", (⟨"en-GB", "English"⟩ : LangEntry)).1 ∧
      ("english", (⟨"en-GB", "English"⟩ : LangEntry)).2.code ≠ "" ∧
      ("english", (⟨"en-GB", "English"⟩ : LangEntry)).2.full_name ≠ "" :=
  registry_exact.2.2.2.2.2 ("english", ⟨"en-GB", "English"⟩) (.head _)
